import Mathlib

/-!
Verification development for the FocusGuardian backend.

Shallow embedding of the per-frame focus-state estimator
(`src/Backend/fd6.py`, `FocusDetector._analyze_landmarks` and its helper
functions), the producer run loop (`FocusDetector.run`), the fusion loop
(`src/Backend/ProductivityManager.py`, `main_application_loop`) and the
session analytics (`src/Backend/analytics_engine.py`,
`calculate_session_summary`).

Python floats are modelled as exact rationals (`ℚ`); Euclidean pixel
distances, which involve square roots, live in `ℝ`.  Strings are modelled
as Lean `String`s with the same literal contents as in the source.
-/

namespace FocusGuardian

/-! ## Configuration constants (fd6.py lines 29-36) -/

def HEAD_YAW_THRESHOLD : ℚ := 30
def HEAD_PITCH_THRESHOLD : ℚ := 30
def EXTREME_YAW_THRESHOLD : ℚ := 160
def EXTREME_PITCH_THRESHOLD : ℚ := 70
def EYE_AR_THRESH_NORMAL : ℚ := mkRat 18 100
def EYE_AR_THRESH_TILTED : ℚ := mkRat 26 100
def EYE_AR_CONSEC_FRAMES : ℕ := 3
def HISTORY_BUFFER_SIZE : ℕ := 30

/-! ## Per-frame geometric inputs

A frame evaluation of `_analyze_landmarks` consumes a solved head pose
(`yaw`, `pitch`, possibly absent when PnP fails) and the averaged eye
aspect ratio `ear` (absent when either eye could not be measured).  The
emotion label is threaded separately (see `computeEmotion`). -/

structure FrameInput where
  yaw : Option ℚ
  pitch : Option ℚ
  ear : Option ℚ
  deriving DecidableEq, Repr

/-- Mutable per-detector state: `self._eye_closure_counter` and
`self._distraction_history` (a deque of 0/1 scores, most recent last). -/
structure AnalysisState where
  counter : ℕ
  history : List ℕ
  deriving DecidableEq, Repr

/-- Result fields of the dictionary built at fd6.py lines 216-221 that the
claims are about. -/
structure AnalysisResult where
  status : String
  reasons : List String
  reason : String
  distractionPercent : ℚ
  emotion : String
  deriving DecidableEq, Repr

/-! ## Helper predicates of the status logic (fd6.py lines 183-200) -/

/-- head_pose_is_problematic flag, fd6.py lines 187-190: set when both
angles are present and either exceeds its normal threshold, or when the
pose is undetermined (either angle absent). -/
def poseProblematic (inp : FrameInput) : Bool :=
  match inp.yaw, inp.pitch with
  | some y, some p =>
      decide (|y| > HEAD_YAW_THRESHOLD) || decide (|p| > HEAD_PITCH_THRESHOLD)
  | _, _ => true

/-- pose_reasons list accumulated at fd6.py lines 187-190. -/
def poseReasonTags (inp : FrameInput) : List String :=
  match inp.yaw, inp.pitch with
  | some y, some p =>
      (if |y| > HEAD_YAW_THRESHOLD then ["Yaw"] else []) ++
      (if |p| > HEAD_PITCH_THRESHOLD then ["Pitch"] else [])
  | _, _ => ["Pose Undetermined"]

/-- current_ear_threshold, fd6.py line 192: tilted threshold when the pose
is problematic, normal threshold otherwise. -/
def currentEarThreshold (inp : FrameInput) : ℚ :=
  if poseProblematic inp then EYE_AR_THRESH_TILTED else EYE_AR_THRESH_NORMAL

/-- is_extreme_pose, fd6.py line 200:
(yaw is not None and abs(yaw) > EXTREME_YAW_THRESHOLD) or
(pitch is not None and abs(pitch) > EXTREME_PITCH_THRESHOLD). -/
def isExtremePose (yaw pitch : Option ℚ) : Bool :=
  (match yaw with
   | some y => decide (|y| > EXTREME_YAW_THRESHOLD)
   | none => false) ||
  (match pitch with
   | some p => decide (|p| > EXTREME_PITCH_THRESHOLD)
   | none => false)

/-- Outcome of the eye-closure debounce block, fd6.py lines 193-198. -/
structure EyeState where
  counter : ℕ
  closed : Bool
  confidentlyOpen : Bool
  deriving DecidableEq, Repr

/-- Eye-closure debounce, fd6.py lines 193-198: below-threshold EAR
increments the streak counter and declares the eyes definitively closed
once the streak reaches EYE_AR_CONSEC_FRAMES; an at-or-above-threshold
EAR resets the counter and marks the eyes confidently open; an
unavailable EAR resets the counter. -/
def updateEyeState (inp : FrameInput) (counter : ℕ) : EyeState :=
  match inp.ear with
  | some e =>
      if e < currentEarThreshold inp then
        { counter := counter + 1
          closed := decide (counter + 1 ≥ EYE_AR_CONSEC_FRAMES)
          confidentlyOpen := false }
      else
        { counter := 0, closed := false, confidentlyOpen := true }
  | none => { counter := 0, closed := false, confidentlyOpen := false }

/-- Frame classification used to state the debounce claim: the EAR is
available and below the pose-dependent threshold of this frame. -/
def earBelow (inp : FrameInput) : Bool :=
  match inp.ear with
  | some e => decide (e < currentEarThreshold inp)
  | none => false

/-- Frame classification used to state the debounce claim: the EAR is
available and at or above the pose-dependent threshold of this frame. -/
def earAtOrAbove (inp : FrameInput) : Bool :=
  match inp.ear with
  | some e => decide (currentEarThreshold inp ≤ e)
  | none => false

/-- Status decision chain, fd6.py lines 200-208 (an if/elif cascade). -/
def statusAndReasons (inp : FrameInput) (closed confidentlyOpen : Bool) :
    String × List String :=
  if isExtremePose inp.yaw inp.pitch then ("Distracted", ["Extreme Pose"])
  else if closed then ("Distracted", ["Eyes Closed"])
  else if poseProblematic inp then
    if confidentlyOpen then ("Focused", [])
    else
      ("Distracted",
        poseReasonTags inp ++
          (match inp.ear with
           | none => ["Eye Landmarks Unclear"]
           | some e =>
               if e < currentEarThreshold inp then ["Eyes Slightly Closed"]
               else []))
  else
    match inp.ear with
    | none => ("Distracted", ["Eye Landmarks Unclear"])
    | some _ => ("Focused", [])

/-! ## Rolling distraction history (fd6.py lines 89, 211-213) -/

/-- Append a score to the deque(maxlen=HISTORY_BUFFER_SIZE): the oldest
entries are evicted so that at most HISTORY_BUFFER_SIZE remain. -/
def pushHistory (h : List ℕ) (score : ℕ) : List ℕ :=
  let h1 := h ++ [score]
  if h1.length > HISTORY_BUFFER_SIZE then h1.drop (h1.length - HISTORY_BUFFER_SIZE)
  else h1

/-- dist_perc, fd6.py line 213:
(sum(history) / len(history)) * 100 if len(history) > 0 else 0. -/
def distractionPercent (h : List ℕ) : ℚ :=
  if h.length > 0 then ((h.sum : ℚ) / (h.length : ℚ)) * 100 else 0

/-! ## Reason string assembly (fd6.py line 214) -/

/-- Insertion step of a stable ascending sort on strings, modelling the
behaviour of sorted() on the reason tags. -/
def insertString (s : String) : List String → List String
  | [] => [s]
  | t :: ts => if s < t then s :: t :: ts else t :: insertString s ts

/-- Ascending sort on strings (Python sorted over code points). -/
def sortStrings : List String → List String
  | [] => []
  | s :: ss => insertString s (sortStrings ss)

/-- final_reason, fd6.py line 214: " & ".join(sorted(set(reasons_list))). -/
def joinReasons (reasons : List String) : String :=
  String.intercalate " & " (sortStrings reasons.dedup)

/-! ## The per-frame analysis (fd6.py lines 158-222, state-relevant core) -/

/-- Core of FocusDetector._analyze_landmarks: consumes the solved pose and
averaged EAR of one frame plus the current emotion label, updates the
eye-closure counter and the rolling history, and produces the status,
reason and distraction-percent fields of the emitted record. -/
def analyze (inp : FrameInput) (emotion : String) (st : AnalysisState) :
    AnalysisResult × AnalysisState :=
  let es := updateEyeState inp st.counter
  let sr := statusAndReasons inp es.closed es.confidentlyOpen
  let score : ℕ := if sr.1 ≠ "Focused" then 1 else 0
  let hist := pushHistory st.history score
  ({ status := sr.1
     reasons := sr.2
     reason := joinReasons sr.2
     distractionPercent := distractionPercent hist
     emotion := emotion },
   { counter := es.counter, history := hist })

/-- Emotion label assembly, fd6.py lines 170-180: starts at "N/A"; when the
model is loaded and the feature vector is truthy (present and non-empty),
a successful prediction replaces it and a failing prediction (modelled as
`none`) leaves it at "N/A". -/
def computeEmotion (model : Option (List ℚ → Option String))
    (features : Option (List ℚ)) : String :=
  match model with
  | none => "N/A"
  | some predict =>
      match features with
      | none => "N/A"
      | some fs =>
          if fs.isEmpty then "N/A"
          else
            match predict fs with
            | some label => label
            | none => "N/A"

/-- One frame of _analyze_landmarks including the emotion block. -/
def analyzeFrame (model : Option (List ℚ → Option String))
    (features : Option (List ℚ)) (inp : FrameInput) (st : AnalysisState) :
    AnalysisResult × AnalysisState :=
  analyze inp (computeEmotion model features) st

/-! ## Eye aspect ratio (fd6.py lines 52-55, calculate_ear)

Pixel coordinates are points of `ℝ × ℝ`; the Euclidean norm of a
difference of two points is np.linalg.norm. -/

/-- Euclidean distance between two 2D pixel points. -/
noncomputable def pixelDist (p q : ℝ × ℝ) : ℝ :=
  Real.sqrt ((p.1 - q.1) ^ 2 + (p.2 - q.2) ^ 2)

/-- calculate_ear, fd6.py lines 52-55: on None coords return None;
otherwise A = |coords[1]-coords[5]|, B = |coords[2]-coords[4]|,
C = |coords[0]-coords[3]| and the result is (A+B)/(2*C) when C is nonzero
and the default 0.3 when C is zero. -/
noncomputable def calculate_ear (coords : Option (Fin 6 → ℝ × ℝ)) : Option ℝ :=
  match coords with
  | none => none
  | some c =>
      let A := pixelDist (c 1) (c 5)
      let B := pixelDist (c 2) (c 4)
      let C := pixelDist (c 0) (c 3)
      some (if C ≠ 0 then (A + B) / (2 * C) else 3/10)

/-! ## Yaw unwrap (fd6.py lines 67-70, estimate_head_pose)

The PnP solve and the rotation-to-Euler conversion are external
(cv2.solvePnP, scipy Rotation); the repository code applied on top of the
solved yaw is the unwrap step `if abs(yaw)>160: yaw -= sign(yaw)*180`. -/

/-- np.sign on rationals. -/
def sgn (q : ℚ) : ℚ :=
  if q > 0 then 1 else if q < 0 then -1 else 0

/-- Yaw unwrap step of estimate_head_pose, fd6.py line 69. -/
def unwrapYaw (yaw : ℚ) : ℚ :=
  if |yaw| > 160 then yaw - sgn yaw * 180 else yaw

/-! ## Producer run loop skeleton (fd6.py lines 258-326, FocusDetector.run)

The control flow relevant to availability handling, abstracted over what
the camera delivers each iteration.  Display handling (show_window) and
the cooperative stop event are omitted; the queue is modelled as the list
of records put on it (a full queue merely drops, which none of the claims
touch). -/

/-- What one loop iteration observes from the camera. -/
inductive CamEvent
  | disconnected
  | readFail
  | frame (landmarksPresent : Bool)
  deriving DecidableEq, Repr

/-- Records the producer puts on the shared channel, discriminated as in
the Python dictionaries by their type tag: one explicit error record
(type 'error', fd6.py line 260) or a per-frame data record (fd6.py
lines 302-308). -/
inductive ProducerRec
  | error
  | data (landmarksPresent : Bool)
  deriving DecidableEq, Repr

/-- Body of the while loop, fd6.py lines 272-323: a closed or lost camera
breaks out of the loop emitting nothing; a failed read sleeps briefly and
continues emitting nothing; a successful frame emits one data record. -/
def producerLoop : List CamEvent → List ProducerRec
  | [] => []
  | CamEvent.disconnected :: _ => []
  | CamEvent.readFail :: rest => producerLoop rest
  | CamEvent.frame lm :: rest => ProducerRec.data lm :: producerLoop rest

/-- FocusDetector.run, fd6.py lines 258-326: failed initialization puts a
single error record on the channel and returns without entering the loop;
otherwise the loop runs over the camera events. -/
def runProducer (initOk : Bool) (events : List CamEvent) : List ProducerRec :=
  if initOk then producerLoop events else [ProducerRec.error]

/-! ## Fusion loop (ProductivityManager.py lines 127-179) -/

/-- Focus record fields consumed by the fusion loop. -/
structure FocusRecord where
  status : String
  reason : String
  emotion : String
  deriving DecidableEq, Repr

/-- Screen-tracker (context) record fields consumed by the fusion loop. -/
structure ContextRecord where
  appName : String
  windowTitle : String
  url : String
  ocr : String
  deriving DecidableEq, Repr

/-- Records arriving on the shared channel, discriminated by the source
tag. -/
inductive TaggedRecord
  | focus (f : FocusRecord)
  | context (c : ContextRecord)
  deriving DecidableEq, Repr

/-- Moment analyzed on a context arrival: the latest focus snapshot, the
context record, and the two external classifier outputs. -/
structure AnalyzedMoment where
  focus : FocusRecord
  context : ContextRecord
  serviceName : String
  productivityLabel : String
  deriving DecidableEq, Repr

/-- True exactly on context records. -/
def TaggedRecord.isContext : TaggedRecord → Bool
  | TaggedRecord.focus _ => false
  | TaggedRecord.context _ => true

/-- One iteration of the main analysis loop body, ProductivityManager.py
lines 132-173, parameterised over the external service extractor and
productivity classifier: a focus record only replaces the latest-focus
snapshot; a context record with no snapshot yet is skipped (continue);
a context record with a snapshot present emits exactly one analyzed
moment and keeps the snapshot. -/
def fusionStep (svc : String → String → String → String)
    (clf : FocusRecord → ContextRecord → String)
    (st : Option FocusRecord) (r : TaggedRecord) :
    Option FocusRecord × List AnalyzedMoment :=
  match r with
  | TaggedRecord.focus f => (some f, [])
  | TaggedRecord.context c =>
      match st with
      | none => (none, [])
      | some f =>
          (some f,
           [{ focus := f, context := c,
              serviceName := svc c.appName c.windowTitle c.url,
              productivityLabel := clf f c }])

/-- The fusion loop over a list of arriving records, collecting every
emitted analyzed moment in order. -/
def fusionRun (svc : String → String → String → String)
    (clf : FocusRecord → ContextRecord → String)
    (st : Option FocusRecord) : List TaggedRecord → List AnalyzedMoment
  | [] => []
  | r :: rest =>
      let step := fusionStep svc clf st r
      step.2 ++ fusionRun svc clf step.1 rest

/-! ## Session analytics (analytics_engine.py, calculate_session_summary) -/

/-- One persisted activity_log row, restricted to the columns the summary
reads. -/
structure ActivityRow where
  timestamp : ℚ
  productivity_label : String
  service_name : String
  deriving DecidableEq, Repr

/-- Successive differences of a column in row order (pandas .diff(),
with the leading NaN dropped as .median() skips it). -/
def diffsQ : List ℚ → List ℚ
  | a :: b :: rest => (b - a) :: diffsQ (b :: rest)
  | _ => []

/-- Minimum of a rational column (pandas .min() on a nonempty column). -/
def listMinQ : List ℚ → ℚ
  | [] => 0
  | x :: xs => xs.foldl min x

/-- Maximum of a rational column (pandas .max() on a nonempty column). -/
def listMaxQ : List ℚ → ℚ
  | [] => 0
  | x :: xs => xs.foldl max x

/-- Insertion step of an ascending sort on rationals. -/
def insertQ (q : ℚ) : List ℚ → List ℚ
  | [] => [q]
  | t :: ts => if q ≤ t then q :: t :: ts else t :: insertQ q ts

/-- Ascending sort on rationals. -/
def sortQ : List ℚ → List ℚ
  | [] => []
  | q :: qs => insertQ q (sortQ qs)

/-- Median (pandas .median()): none on an empty column, middle element for
odd length, mean of the two middle elements for even length. -/
def medianQ (l : List ℚ) : Option ℚ :=
  match l with
  | [] => none
  | _ =>
      let s := sortQ l
      let n := s.length
      if n % 2 = 1 then some (s.getD (n / 2) 0)
      else some ((s.getD (n / 2 - 1) 0 + s.getD (n / 2) 0) / 2)

/-- analysis_interval, analytics_engine.py lines 31-33: the median of the
timestamp diffs, replaced by the default 5 when it is NaN (fewer than two
rows) or nonpositive. -/
def analysisInterval (timestamps : List ℚ) : ℚ :=
  match medianQ (diffsQ timestamps) with
  | none => 5
  | some m => if m ≤ 0 then 5 else m

/-- value_counts().get(label, 0): the number of rows carrying the label. -/
def countLabel (rows : List ActivityRow) (label : String) : ℕ :=
  rows.countP (fun r => r.productivity_label == label)

/-- productivity_percentage, analytics_engine.py line 40. -/
def productivityPercentage (productiveSeconds unproductiveSeconds : ℚ) : ℚ :=
  let total := productiveSeconds + unproductiveSeconds
  if total > 0 then (productiveSeconds / total) * 100 else 0

/-- Rounding to two decimal places on exact rationals (round(x, 2)). -/
def round2 (q : ℚ) : ℚ :=
  (round (q * 100) : ℤ) / 100

/-- Fields of the summary dictionary, analytics_engine.py lines 44-55
(start and end time strings omitted; the per-service map is a list of
pairs over the distinct service names). -/
structure SessionSummary where
  total_duration_seconds : ℚ
  total_duration_minutes : ℚ
  productivity_percentage : ℚ
  productive_minutes : ℚ
  unproductive_minutes : ℚ
  time_per_service_minutes : List (String × ℚ)
  deriving DecidableEq, Repr

/-- calculate_session_summary, analytics_engine.py lines 11-57: none on an
empty row set (the error dictionary), otherwise the computed summary.
The duration is the first-to-last timestamp span; productive and
unproductive seconds are label counts times the median sampling
interval. -/
def calculate_session_summary (rows : List ActivityRow) : Option SessionSummary :=
  if rows.isEmpty then none
  else
      let ts := rows.map (fun r => r.timestamp)
      let durationSeconds := listMaxQ ts - listMinQ ts
      let interval := analysisInterval ts
      let productiveSeconds := (countLabel rows "Productive" : ℚ) * interval
      let unproductiveSeconds := (countLabel rows "Unproductive" : ℚ) * interval
      some
        { total_duration_seconds := durationSeconds
          total_duration_minutes := round2 (durationSeconds / 60)
          productivity_percentage :=
            round2 (productivityPercentage productiveSeconds unproductiveSeconds)
          productive_minutes := round2 (productiveSeconds / 60)
          unproductive_minutes := round2 (unproductiveSeconds / 60)
          time_per_service_minutes :=
            ((rows.map (fun r => r.service_name)).dedup).map
              (fun s =>
                (s, round2 (((rows.countP (fun r => r.service_name == s)) : ℚ) *
                      interval / 60))) }

/-! ## Theorems -/

/-- C7: for every solved yaw with 160 < |yaw| ≤ 180, the unwrap rule
replaces yaw by yaw - sign(yaw)*180, the magnitude strictly decreases,
and the result lies on the side opposite to the sign of the input
(strictly opposite whenever |yaw| < 180; at |yaw| = 180 the result is the
boundary value 0). -/
theorem yaw_unwrap_C7 (yaw : ℚ) (h1 : 160 < |yaw|) (h2 : |yaw| ≤ 180) :
    unwrapYaw yaw = yaw - sgn yaw * 180 ∧
    |unwrapYaw yaw| < |yaw| ∧
    (0 < yaw → unwrapYaw yaw ≤ 0) ∧
    (yaw < 0 → 0 ≤ unwrapYaw yaw) ∧
    (|yaw| < 180 →
      (0 < yaw → unwrapYaw yaw < 0) ∧ (yaw < 0 → 0 < unwrapYaw yaw)) := by
  have hy : |yaw| > 160 := h1
  rcases lt_trichotomy yaw 0 with hneg | hzero | hpos
  · have hs : sgn yaw = -1 := by rw [sgn, if_neg (by linarith), if_pos hneg]
    have hu : unwrapYaw yaw = yaw + 180 := by rw [unwrapYaw, if_pos hy, hs]; ring
    have ha : |yaw| = -yaw := abs_of_neg hneg
    have hlo : -180 ≤ yaw := by rw [ha] at h2; linarith
    have hhi : yaw < -160 := by rw [ha] at hy; linarith
    refine ⟨by rw [hu, hs]; ring, ?_, ?_, ?_, ?_⟩
    · rw [hu, ha, abs_of_nonneg (by linarith)]; linarith
    · intro hc; linarith
    · intro _; rw [hu]; linarith
    · intro hlt; rw [ha] at hlt
      exact ⟨fun hc => absurd hc (by linarith), fun _ => by rw [hu]; linarith⟩
  · subst hzero; rw [abs_zero] at hy; linarith
  · have hs : sgn yaw = 1 := by rw [sgn, if_pos hpos]
    have hu : unwrapYaw yaw = yaw - 180 := by rw [unwrapYaw, if_pos hy, hs]; ring
    have ha : |yaw| = yaw := abs_of_pos hpos
    have hhi : yaw ≤ 180 := by rw [ha] at h2; linarith
    have hlo : 160 < yaw := by rw [ha] at hy; linarith
    refine ⟨by rw [hu, hs]; ring, ?_, ?_, ?_, ?_⟩
    · rw [hu, ha, abs_of_nonpos (by linarith)]; linarith
    · intro _; rw [hu]; linarith
    · intro hc; linarith
    · intro hlt; rw [ha] at hlt
      exact ⟨fun _ => by rw [hu]; linarith, fun hc => absurd hc (by linarith)⟩

/-- Witness for C7 at the concrete solved yaw 170. -/
theorem yaw_unwrap_C7_witness :
    (160:ℚ) < |(170:ℚ)| ∧ |(170:ℚ)| ≤ 180 ∧
    unwrapYaw 170 = 170 - sgn 170 * 180 ∧ |unwrapYaw 170| < |(170:ℚ)| := by
  have h := yaw_unwrap_C7 170 (by decide) (by decide)
  exact ⟨by decide, by decide, h.1, h.2.1⟩

/-- C8 (implicit): every yaw the pose estimator can return after the
unwrap step has magnitude at most 160, so the extreme-yaw disjunct of the
extreme-pose check is never satisfied by estimator output and extreme
pose can only be triggered by the pitch disjunct. -/
theorem yaw_extreme_unreachable_C8 (yaw : ℚ) (h2 : |yaw| ≤ 180) :
    |unwrapYaw yaw| ≤ EXTREME_YAW_THRESHOLD ∧
    ∀ pitch : Option ℚ,
      isExtremePose (some (unwrapYaw yaw)) pitch = isExtremePose none pitch := by
  have hb : |unwrapYaw yaw| ≤ 160 := by
    by_cases hy : |yaw| > 160
    · rcases lt_trichotomy yaw 0 with hneg | hzero | hpos
      · have hs : sgn yaw = -1 := by rw [sgn, if_neg (by linarith), if_pos hneg]
        have hu : unwrapYaw yaw = yaw + 180 := by rw [unwrapYaw, if_pos hy, hs]; ring
        have ha : |yaw| = -yaw := abs_of_neg hneg
        have hlo : -180 ≤ yaw := by rw [ha] at h2; linarith
        have hhi : yaw < -160 := by rw [ha] at hy; linarith
        rw [hu, abs_le]; constructor <;> linarith
      · subst hzero; rw [abs_zero] at hy; linarith
      · have hs : sgn yaw = 1 := by rw [sgn, if_pos hpos]
        have hu : unwrapYaw yaw = yaw - 180 := by rw [unwrapYaw, if_pos hy, hs]; ring
        have ha : |yaw| = yaw := abs_of_pos hpos
        have hhi : yaw ≤ 180 := by rw [ha] at h2; linarith
        have hlo : 160 < yaw := by rw [ha] at hy; linarith
        rw [hu, abs_le]; constructor <;> linarith
    · rw [unwrapYaw, if_neg hy]; exact not_lt.mp hy
  refine ⟨hb, fun pitch => ?_⟩
  have hd : decide (|unwrapYaw yaw| > EXTREME_YAW_THRESHOLD) = false :=
    decide_eq_false (not_lt.mpr hb)
  simp only [isExtremePose, hd, Bool.false_or]

/-- Witness for C8 at the concrete solved yaw 170 and pitch 80. -/
theorem yaw_extreme_unreachable_C8_witness :
    |(170:ℚ)| ≤ 180 ∧ |unwrapYaw 170| ≤ EXTREME_YAW_THRESHOLD ∧
    isExtremePose (some (unwrapYaw 170)) (some 80) = isExtremePose none (some 80) := by
  have h := yaw_extreme_unreachable_C8 170 (by decide)
  exact ⟨by decide, h.1, h.2 (some 80)⟩

/-- C9 counterexample: a webcam disconnection after successful
initialization makes the producer exit the loop WITHOUT putting any error
record on the channel, contradicting the claim that sustained camera
unavailability always emits exactly one error record before exit. -/
theorem producer_disconnect_cex_C9 :
    runProducer true [CamEvent.disconnected] = [] ∧
    (runProducer true [CamEvent.disconnected]).count ProducerRec.error ≠ 1 := by
  exact ⟨rfl, by decide⟩

/-- C9 (amended): a single failed frame read continues the loop with no
record emitted; a failed initialization puts exactly one error record on
the channel and exits; a webcam disconnection exits the loop emitting no
further record (in particular no error record); a successful frame emits
one data record. -/
theorem producer_failure_handling_C9 :
    ∀ events : List CamEvent,
      runProducer false events = [ProducerRec.error] ∧
      producerLoop (CamEvent.readFail :: events) = producerLoop events ∧
      producerLoop (CamEvent.disconnected :: events) = [] ∧
      ∀ lm : Bool,
        producerLoop (CamEvent.frame lm :: events) =
          ProducerRec.data lm :: producerLoop events := by
  intro events
  exact ⟨rfl, rfl, rfl, fun _ => rfl⟩

/-- C10 (implicit noninterference): two frame analyses with identical
geometric inputs and identical prior state but different emotion
classifier behaviour (different model, absent model, failing or differing
prediction) produce identical status, reason tags, reason string,
distraction percentage and successor state; the emotion output only ever
reaches the emotion field of the emitted record. -/
theorem emotion_noninterference_C10 :
    ∀ (m1 m2 : Option (List ℚ → Option String)) (f1 f2 : Option (List ℚ))
      (inp : FrameInput) (st : AnalysisState),
      (analyzeFrame m1 f1 inp st).1.status = (analyzeFrame m2 f2 inp st).1.status ∧
      (analyzeFrame m1 f1 inp st).1.reasons = (analyzeFrame m2 f2 inp st).1.reasons ∧
      (analyzeFrame m1 f1 inp st).1.reason = (analyzeFrame m2 f2 inp st).1.reason ∧
      (analyzeFrame m1 f1 inp st).1.distractionPercent =
        (analyzeFrame m2 f2 inp st).1.distractionPercent ∧
      (analyzeFrame m1 f1 inp st).2 = (analyzeFrame m2 f2 inp st).2 ∧
      (analyzeFrame m1 f1 inp st).1.emotion = computeEmotion m1 f1 := by
  intro m1 m2 f1 f2 inp st
  exact ⟨rfl, rfl, rfl, rfl, rfl, rfl⟩

/-- C1 counterexample: on a frame with extreme pitch (80 > 70) whose EAR
is below threshold and whose incoming closure streak is 2 (so the streak
reaches EYE_AR_CONSEC_FRAMES = 3 on this frame, i.e. the eyes are
definitively closed), the emitted reason list is exactly ["Extreme Pose"]
and does NOT contain "Eyes Closed": the elif chain of fd6.py line 202
suppresses the eye tag whenever the extreme-pose branch fires. -/
theorem extreme_pose_eyes_closed_cex_C1 :
    (analyze ⟨some 0, some 80, some (mkRat 1 10)⟩ "N/A" ⟨2, []⟩).2.counter =
        EYE_AR_CONSEC_FRAMES ∧
    isExtremePose (some (0:ℚ)) (some 80) = true ∧
    earBelow ⟨some 0, some 80, some (mkRat 1 10)⟩ = true ∧
    (analyze ⟨some 0, some 80, some (mkRat 1 10)⟩ "N/A" ⟨2, []⟩).1.status =
        "Distracted" ∧
    (analyze ⟨some 0, some 80, some (mkRat 1 10)⟩ "N/A" ⟨2, []⟩).1.reasons =
        ["Extreme Pose"] ∧
    "Eyes Closed" ∉
      (analyze ⟨some 0, some 80, some (mkRat 1 10)⟩ "N/A" ⟨2, []⟩).1.reasons := by
  refine ⟨by decide, by decide, by decide, by decide, by decide, by decide⟩

/-- C1 (amended): whenever the pose is extreme the frame is Distracted
with reason list exactly ["Extreme Pose"], regardless of eye state; in
particular, even when the eyes are definitively closed on the same frame,
the tag "Eyes Closed" is NOT added (the extreme branch preempts it). -/
theorem extreme_pose_override_C1 (inp : FrameInput) (em : String)
    (st : AnalysisState) (h : isExtremePose inp.yaw inp.pitch = true) :
    (analyze inp em st).1.status = "Distracted" ∧
    (analyze inp em st).1.reasons = ["Extreme Pose"] ∧
    "Extreme Pose" ∈ (analyze inp em st).1.reasons ∧
    "Eyes Closed" ∉ (analyze inp em st).1.reasons := by
  have hsr : ∀ c o : Bool, statusAndReasons inp c o = ("Distracted", ["Extreme Pose"]) := by
    intro c o; rw [statusAndReasons, if_pos h]
  simp [analyze, hsr]

/-- Witness for C1 (amended) at a concrete extreme-pitch frame whose eyes
are simultaneously definitively closed. -/
theorem extreme_pose_override_C1_witness :
    isExtremePose (some (0:ℚ)) (some 80) = true ∧
    (analyze ⟨some 0, some 80, some (mkRat 1 10)⟩ "Happy" ⟨2, [1]⟩).1.status =
        "Distracted" ∧
    (analyze ⟨some 0, some 80, some (mkRat 1 10)⟩ "Happy" ⟨2, [1]⟩).1.reasons =
        ["Extreme Pose"] ∧
    "Eyes Closed" ∉
      (analyze ⟨some 0, some 80, some (mkRat 1 10)⟩ "Happy" ⟨2, [1]⟩).1.reasons := by
  have h := extreme_pose_override_C1 ⟨some 0, some 80, some (mkRat 1 10)⟩
    "Happy" ⟨2, [1]⟩ (by decide)
  exact ⟨by decide, h.1, h.2.1, h.2.2.2⟩

/-! ### Helper lemmas for the debounce claim -/

theorem below_counter (inp : FrameInput) (c : ℕ) (h : earBelow inp = true) :
    (updateEyeState inp c).counter = c + 1 := by
  rcases he : inp.ear with _ | e
  · rw [earBelow, he] at h; exact absurd h (by simp)
  · rw [earBelow, he] at h
    simp only [updateEyeState, he]
    rw [if_pos (of_decide_eq_true h)]

theorem below_closed (inp : FrameInput) (c : ℕ) (h : earBelow inp = true) :
    (updateEyeState inp c).closed = decide (c + 1 ≥ EYE_AR_CONSEC_FRAMES) := by
  rcases he : inp.ear with _ | e
  · rw [earBelow, he] at h; exact absurd h (by simp)
  · rw [earBelow, he] at h
    simp only [updateEyeState, he]
    rw [if_pos (of_decide_eq_true h)]

theorem below_open (inp : FrameInput) (c : ℕ) (h : earBelow inp = true) :
    (updateEyeState inp c).confidentlyOpen = false := by
  rcases he : inp.ear with _ | e
  · rw [earBelow, he] at h; exact absurd h (by simp)
  · rw [earBelow, he] at h
    simp only [updateEyeState, he]
    rw [if_pos (of_decide_eq_true h)]

theorem atOrAbove_counter (inp : FrameInput) (c : ℕ)
    (h : earAtOrAbove inp = true) : (updateEyeState inp c).counter = 0 := by
  rcases he : inp.ear with _ | e
  · rw [earAtOrAbove, he] at h; exact absurd h (by simp)
  · rw [earAtOrAbove, he] at h
    simp only [updateEyeState, he]
    rw [if_neg (not_lt.mpr (of_decide_eq_true h))]

theorem atOrAbove_closed (inp : FrameInput) (c : ℕ)
    (h : earAtOrAbove inp = true) : (updateEyeState inp c).closed = false := by
  rcases he : inp.ear with _ | e
  · rw [earAtOrAbove, he] at h; exact absurd h (by simp)
  · rw [earAtOrAbove, he] at h
    simp only [updateEyeState, he]
    rw [if_neg (not_lt.mpr (of_decide_eq_true h))]

theorem earNone_counter (inp : FrameInput) (c : ℕ) (h : inp.ear = none) :
    (updateEyeState inp c).counter = 0 := by
  simp only [updateEyeState, h]

theorem earNone_closed (inp : FrameInput) (c : ℕ) (h : inp.ear = none) :
    (updateEyeState inp c).closed = false := by
  simp only [updateEyeState, h]

theorem eyesClosed_not_mem_poseReasonTags (inp : FrameInput) :
    "Eyes Closed" ∉ poseReasonTags inp := by
  rw [poseReasonTags]
  rcases inp.yaw with _ | y <;> rcases inp.pitch with _ | p <;> simp

/-- Without the definitively-closed flag, the reason list produced by the
status chain never contains the "Eyes Closed" tag. -/
theorem eyesClosed_requires_closed (inp : FrameInput) (o : Bool)
    (h : "Eyes Closed" ∈ (statusAndReasons inp false o).2) : False := by
  rw [statusAndReasons] at h
  by_cases h1 : isExtremePose inp.yaw inp.pitch = true
  · rw [if_pos h1] at h; simp at h
  · rw [if_neg h1, if_neg (by simp)] at h
    by_cases h2 : poseProblematic inp = true
    · rw [if_pos h2] at h
      by_cases h3 : o = true
      · rw [if_pos h3] at h; simp at h
      · rw [if_neg h3] at h
        rcases List.mem_append.mp h with hl | hr
        · exact eyesClosed_not_mem_poseReasonTags inp hl
        · rcases he : inp.ear with _ | e <;> rw [he] at hr
          · simp at hr
          · by_cases h4 : e < currentEarThreshold inp
            · simp [h4] at hr
            · simp [h4] at hr
    · rw [if_neg h2] at h
      rcases he : inp.ear with _ | e <;> rw [he] at h <;> simp at h

/-- With eyes definitively closed and a non-extreme pose, the status chain
returns Distracted with the single tag "Eyes Closed". -/
theorem statusAndReasons_fires (inp : FrameInput) (o : Bool)
    (hx : isExtremePose inp.yaw inp.pitch = false) :
    statusAndReasons inp true o = ("Distracted", ["Eyes Closed"]) := by
  rw [statusAndReasons, if_neg (by rw [hx]; simp), if_pos rfl]

theorem analyze_counter_eq (inp : FrameInput) (em : String) (st : AnalysisState) :
    (analyze inp em st).2.counter = (updateEyeState inp st.counter).counter := rfl

theorem analyze_reasons_eq (inp : FrameInput) (em : String) (st : AnalysisState) :
    (analyze inp em st).1.reasons =
      (statusAndReasons inp (updateEyeState inp st.counter).closed
        (updateEyeState inp st.counter).confidentlyOpen).2 := rfl

theorem analyze_status_eq (inp : FrameInput) (em : String) (st : AnalysisState) :
    (analyze inp em st).1.status =
      (statusAndReasons inp (updateEyeState inp st.counter).closed
        (updateEyeState inp st.counter).confidentlyOpen).1 := rfl

/-- C2: eye-closure debounce.  Part 1: starting from a zero streak, two
below-threshold frames followed by an at-or-above frame never produce the
"Eyes Closed" tag, and the streak counter is 0 again after the open
frame.  Part 2: the counter resets on any frame with no EAR.  Part 3:
starting from a zero streak, three consecutive below-threshold frames
with a non-extreme pose on the third fire Distracted / "Eyes Closed"
exactly on the third frame and on no earlier one. -/
theorem eye_debounce_C2 :
    (∀ (i1 i2 i3 : FrameInput) (e1 e2 e3 : String) (st0 : AnalysisState),
      st0.counter = 0 → earBelow i1 = true → earBelow i2 = true →
      earAtOrAbove i3 = true →
      "Eyes Closed" ∉ (analyze i1 e1 st0).1.reasons ∧
      "Eyes Closed" ∉ (analyze i2 e2 (analyze i1 e1 st0).2).1.reasons ∧
      "Eyes Closed" ∉
        (analyze i3 e3 (analyze i2 e2 (analyze i1 e1 st0).2).2).1.reasons ∧
      (analyze i3 e3 (analyze i2 e2 (analyze i1 e1 st0).2).2).2.counter = 0) ∧
    (∀ (inp : FrameInput) (em : String) (st : AnalysisState),
      inp.ear = none → (analyze inp em st).2.counter = 0) ∧
    (∀ (i1 i2 i3 : FrameInput) (e1 e2 e3 : String) (st0 : AnalysisState),
      st0.counter = 0 → earBelow i1 = true → earBelow i2 = true →
      earBelow i3 = true → isExtremePose i3.yaw i3.pitch = false →
      "Eyes Closed" ∉ (analyze i1 e1 st0).1.reasons ∧
      "Eyes Closed" ∉ (analyze i2 e2 (analyze i1 e1 st0).2).1.reasons ∧
      (analyze i3 e3 (analyze i2 e2 (analyze i1 e1 st0).2).2).1.status =
        "Distracted" ∧
      "Eyes Closed" ∈
        (analyze i3 e3 (analyze i2 e2 (analyze i1 e1 st0).2).2).1.reasons) := by
  refine ⟨?_, ?_, ?_⟩
  · intro i1 i2 i3 e1 e2 e3 st0 h0 hb1 hb2 ho3
    have c1 : (analyze i1 e1 st0).2.counter = 1 := by
      rw [analyze_counter_eq, below_counter i1 _ hb1, h0]
    have c2 : (analyze i2 e2 (analyze i1 e1 st0).2).2.counter = 2 := by
      rw [analyze_counter_eq, below_counter i2 _ hb2, c1]
    refine ⟨?_, ?_, ?_, ?_⟩
    · rw [analyze_reasons_eq, below_closed i1 _ hb1, h0]
      rw [show decide (0 + 1 ≥ EYE_AR_CONSEC_FRAMES) = false from by decide]
      exact fun hm => eyesClosed_requires_closed i1 _ hm
    · rw [analyze_reasons_eq, below_closed i2 _ hb2, c1]
      rw [show decide (1 + 1 ≥ EYE_AR_CONSEC_FRAMES) = false from by decide]
      exact fun hm => eyesClosed_requires_closed i2 _ hm
    · rw [analyze_reasons_eq, atOrAbove_closed i3 _ ho3]
      exact fun hm => eyesClosed_requires_closed i3 _ hm
    · rw [analyze_counter_eq, atOrAbove_counter i3 _ ho3]
  · intro inp em st h
    rw [analyze_counter_eq, earNone_counter inp _ h]
  · intro i1 i2 i3 e1 e2 e3 st0 h0 hb1 hb2 hb3 hx3
    have c1 : (analyze i1 e1 st0).2.counter = 1 := by
      rw [analyze_counter_eq, below_counter i1 _ hb1, h0]
    have c2 : (analyze i2 e2 (analyze i1 e1 st0).2).2.counter = 2 := by
      rw [analyze_counter_eq, below_counter i2 _ hb2, c1]
    have hcl3 :
        (updateEyeState i3 (analyze i2 e2 (analyze i1 e1 st0).2).2.counter).closed
          = true := by
      rw [below_closed i3 _ hb3, c2]
      decide
    refine ⟨?_, ?_, ?_, ?_⟩
    · rw [analyze_reasons_eq, below_closed i1 _ hb1, h0]
      rw [show decide (0 + 1 ≥ EYE_AR_CONSEC_FRAMES) = false from by decide]
      exact fun hm => eyesClosed_requires_closed i1 _ hm
    · rw [analyze_reasons_eq, below_closed i2 _ hb2, c1]
      rw [show decide (1 + 1 ≥ EYE_AR_CONSEC_FRAMES) = false from by decide]
      exact fun hm => eyesClosed_requires_closed i2 _ hm
    · rw [analyze_status_eq, hcl3, statusAndReasons_fires i3 _ hx3]
    · rw [analyze_reasons_eq, hcl3, statusAndReasons_fires i3 _ hx3]
      simp

/-- Witness for C2 on concrete frames: two frames with EAR 0.1 (below the
normal threshold 0.18 at a straight pose), then either an open frame with
EAR 0.25 (part 1) or a third below frame (part 3). -/
theorem eye_debounce_C2_witness :
    (⟨0, []⟩ : AnalysisState).counter = 0 ∧
    earBelow ⟨some 0, some 0, some (mkRat 1 10)⟩ = true ∧
    earAtOrAbove ⟨some 0, some 0, some (mkRat 25 100)⟩ = true ∧
    isExtremePose (some (0:ℚ)) (some 0) = false ∧
    "Eyes Closed" ∉
      (analyze ⟨some 0, some 0, some (mkRat 1 10)⟩ "N/A" ⟨0, []⟩).1.reasons ∧
    (analyze ⟨some 0, some 0, some (mkRat 25 100)⟩ "N/A"
        (analyze ⟨some 0, some 0, some (mkRat 1 10)⟩ "N/A"
          (analyze ⟨some 0, some 0, some (mkRat 1 10)⟩ "N/A" ⟨0, []⟩).2).2).2.counter
      = 0 ∧
    (analyze ⟨some 0, some 0, some (mkRat 1 10)⟩ "N/A"
        (analyze ⟨some 0, some 0, some (mkRat 1 10)⟩ "N/A"
          (analyze ⟨some 0, some 0, some (mkRat 1 10)⟩ "N/A" ⟨0, []⟩).2).2).1.status
      = "Distracted" ∧
    "Eyes Closed" ∈
      (analyze ⟨some 0, some 0, some (mkRat 1 10)⟩ "N/A"
        (analyze ⟨some 0, some 0, some (mkRat 1 10)⟩ "N/A"
          (analyze ⟨some 0, some 0, some (mkRat 1 10)⟩ "N/A" ⟨0, []⟩).2).2).1.reasons := by
  have hA := eye_debounce_C2.1 ⟨some 0, some 0, some (mkRat 1 10)⟩
    ⟨some 0, some 0, some (mkRat 1 10)⟩ ⟨some 0, some 0, some (mkRat 25 100)⟩
    "N/A" "N/A" "N/A" ⟨0, []⟩ rfl (by decide) (by decide) (by decide)
  have hC := eye_debounce_C2.2.2 ⟨some 0, some 0, some (mkRat 1 10)⟩
    ⟨some 0, some 0, some (mkRat 1 10)⟩ ⟨some 0, some 0, some (mkRat 1 10)⟩
    "N/A" "N/A" "N/A" ⟨0, []⟩ rfl (by decide) (by decide) (by decide) (by decide)
  exact ⟨rfl, by decide, by decide, by decide, hA.1, hA.2.2.2, hC.2.2.1, hC.2.2.2⟩

/-- C3: the fusion loop emits an analyzed moment exactly when a context
record arrives while a focus snapshot exists.  A focus arrival only
replaces the snapshot and emits nothing; a context arrival with no
snapshot emits nothing; any prefix of context records before the first
focus record emits nothing; a context arrival with snapshot f emits
exactly the one moment built from f and the context record. -/
theorem fusion_emission_C3 :
    ∀ (svc : String → String → String → String)
      (clf : FocusRecord → ContextRecord → String),
      (∀ (st : Option FocusRecord) (f : FocusRecord) (rest : List TaggedRecord),
        fusionRun svc clf st (TaggedRecord.focus f :: rest) =
          fusionRun svc clf (some f) rest) ∧
      (∀ (c : ContextRecord) (rest : List TaggedRecord),
        fusionRun svc clf none (TaggedRecord.context c :: rest) =
          fusionRun svc clf none rest) ∧
      (∀ (cs rest : List TaggedRecord),
        (∀ r ∈ cs, r.isContext = true) →
        fusionRun svc clf none (cs ++ rest) = fusionRun svc clf none rest) ∧
      (∀ (f : FocusRecord) (c : ContextRecord) (rest : List TaggedRecord),
        fusionRun svc clf (some f) (TaggedRecord.context c :: rest) =
          { focus := f, context := c,
            serviceName := svc c.appName c.windowTitle c.url,
            productivityLabel := clf f c } :: fusionRun svc clf (some f) rest) := by
  intro svc clf
  refine ⟨fun st f rest => rfl, fun c rest => rfl, ?_, fun f c rest => rfl⟩
  intro cs
  induction cs with
  | nil => intro rest _; rfl
  | cons r cs ih =>
      intro rest hall
      rcases r with f | c
      · exact absurd (hall (TaggedRecord.focus f) (by simp)) (by simp [TaggedRecord.isContext])
      · have : fusionRun svc clf none ((TaggedRecord.context c :: cs) ++ rest) =
            fusionRun svc clf none (cs ++ rest) := rfl
        rw [this, ih rest (fun r hr => hall r (by simp [hr]))]

/-- Witness for C3 on a concrete record stream: one context record before
the first focus record emits nothing. -/
theorem fusion_emission_C3_witness :
    (∀ r ∈ [TaggedRecord.context ⟨"chrome", "docs", "https", "text"⟩],
        r.isContext = true) ∧
    fusionRun (fun _ _ _ => "Service") (fun _ _ => "Productive") none
        ([TaggedRecord.context ⟨"chrome", "docs", "https", "text"⟩] ++
          [TaggedRecord.focus ⟨"Focused", "", "N/A"⟩]) =
      fusionRun (fun _ _ _ => "Service") (fun _ _ => "Productive") none
        [TaggedRecord.focus ⟨"Focused", "", "N/A"⟩] := by
  have h := (fusion_emission_C3 (fun _ _ _ => "Service") (fun _ _ => "Productive")).2.2.1
    [TaggedRecord.context ⟨"chrome", "docs", "https", "text"⟩]
    [TaggedRecord.focus ⟨"Focused", "", "N/A"⟩] (by decide)
  exact ⟨by decide, h⟩

/-! ### Rolling history suffix lemma for C4 -/

theorem foldl_pushHistory (l : List ℕ) :
    List.foldl pushHistory [] l = l.drop (l.length - HISTORY_BUFFER_SIZE) := by
  have hB : 0 < HISTORY_BUFFER_SIZE := by rw [HISTORY_BUFFER_SIZE]; omega
  induction l using List.reverseRecOn with
  | nil => rfl
  | append_singleton l x ih =>
      rw [List.foldl_append, ih]
      simp only [List.foldl_cons, List.foldl_nil]
      by_cases h : l.length < HISTORY_BUFFER_SIZE
      · have h1 : l.length - HISTORY_BUFFER_SIZE = 0 := by omega
        have h2 : (l ++ [x]).length - HISTORY_BUFFER_SIZE = 0 := by
          simp only [List.length_append, List.length_cons, List.length_nil]
          omega
        rw [h1, h2, List.drop_zero, List.drop_zero]
        simp only [pushHistory]
        rw [if_neg (by
          simp only [List.length_append, List.length_cons, List.length_nil, gt_iff_lt, not_lt]
          omega)]
      · have hn : HISTORY_BUFFER_SIZE ≤ l.length := by omega
        have hd : (List.drop (l.length - HISTORY_BUFFER_SIZE) l).length =
            HISTORY_BUFFER_SIZE := by
          simp only [List.length_drop]; omega
        simp only [pushHistory]
        rw [if_pos (by
          rw [List.length_append, hd]
          simp only [List.length_cons, List.length_nil]
          omega)]
        have hlen2 :
            (List.drop (l.length - HISTORY_BUFFER_SIZE) l ++ [x]).length -
              HISTORY_BUFFER_SIZE = 1 := by
          rw [List.length_append, hd]
          simp only [List.length_cons, List.length_nil]
          omega
        rw [hlen2]
        rw [List.drop_append_of_le_length (by rw [hd]; omega)]
        rw [List.drop_drop]
        rw [List.length_append]
        simp only [List.length_cons, List.length_nil, Nat.zero_add]
        rw [List.drop_append_of_le_length (by omega)]
        have hidx : l.length - HISTORY_BUFFER_SIZE + 1 =
            l.length + 1 - HISTORY_BUFFER_SIZE := by omega
        rw [hidx]

theorem sum_map_score (w : List Bool) :
    (w.map fun b => if b then (1:ℕ) else 0).sum = w.count true := by
  induction w with
  | nil => rfl
  | cons b w ih =>
      rcases b <;> simp [List.count_cons, ih, Nat.add_comm]

/-- C4: after any sequence of frame verdicts (true = Distracted or
NoFace) is appended to the rolling history, the distraction percent
equals 100 K / min(N, capacity) where N is the number of verdicts so far
and K the number of distracted verdicts among the min(N, capacity) most
recent ones; older verdicts never influence the value.  The second part
ties the emitted record field to the same history computation. -/
theorem rolling_percent_C4 :
    (∀ verdicts : List Bool,
      distractionPercent
          (List.foldl pushHistory []
            (verdicts.map fun b => if b then (1:ℕ) else 0)) =
        100 *
            ((verdicts.drop (verdicts.length - HISTORY_BUFFER_SIZE)).count true : ℚ) /
          ((min verdicts.length HISTORY_BUFFER_SIZE : ℕ) : ℚ)) ∧
    (∀ (inp : FrameInput) (em : String) (st : AnalysisState),
      (analyze inp em st).1.distractionPercent =
        distractionPercent ((analyze inp em st).2.history)) := by
  constructor
  · intro w
    rw [foldl_pushHistory]
    simp only [List.length_map]
    rw [← List.map_drop]
    rw [distractionPercent]
    rcases Nat.eq_zero_or_pos w.length with hz | hpos
    · have hw : w = [] := List.eq_nil_of_length_eq_zero hz
      subst hw
      simp
    · have hlen : (w.drop (w.length - HISTORY_BUFFER_SIZE)).length =
          min w.length HISTORY_BUFFER_SIZE := by
        simp only [List.length_drop]; omega
      have hmin : 0 < min w.length HISTORY_BUFFER_SIZE := by
        rw [HISTORY_BUFFER_SIZE]; omega
      rw [if_pos (by simp only [List.length_map, hlen]; exact hmin)]
      rw [sum_map_score, List.length_map, hlen]
      have hne : ((min w.length HISTORY_BUFFER_SIZE : ℕ) : ℚ) ≠ 0 := by
        have : 0 < min w.length HISTORY_BUFFER_SIZE := by
          rw [HISTORY_BUFFER_SIZE]; omega
        exact_mod_cast Nat.pos_iff_ne_zero.mp this
      field_simp
      ring
  · intro inp em st
    rfl

/-- C6: the eye-openness computation on any 6-point eye landmark set is
(d(p1,p5) + d(p2,p4)) / (2 d(p0,p3)) whenever the horizontal corner
distance d(p0,p3) is nonzero, and exactly 0.3 when it is zero; the
division is guarded by the nonzero test, and coincident corners in
particular yield 0.3.  Absent coordinates yield an absent EAR. -/
theorem ear_guard_C6 :
    (∀ c : Fin 6 → ℝ × ℝ,
      calculate_ear (some c) =
        some (if pixelDist (c 0) (c 3) ≠ 0 then
            (pixelDist (c 1) (c 5) + pixelDist (c 2) (c 4)) /
              (2 * pixelDist (c 0) (c 3))
          else 3/10)) ∧
    (∀ c : Fin 6 → ℝ × ℝ, pixelDist (c 0) (c 3) = 0 →
      calculate_ear (some c) = some (3/10)) ∧
    (∀ c : Fin 6 → ℝ × ℝ, c 0 = c 3 → calculate_ear (some c) = some (3/10)) ∧
    calculate_ear none = none := by
  have hzero : ∀ c : Fin 6 → ℝ × ℝ, pixelDist (c 0) (c 3) = 0 →
      calculate_ear (some c) = some (3/10) := by
    intro c h
    simp only [calculate_ear]
    rw [if_neg (fun hn => hn h)]
  refine ⟨fun c => rfl, hzero, ?_, rfl⟩
  intro c h
  apply hzero
  rw [pixelDist, h]
  simp

/-- Witness for C6: six coincident landmark points have zero horizontal
corner distance and the EAR defaults to exactly 0.3. -/
theorem ear_guard_C6_witness :
    (fun _ : Fin 6 => ((0:ℝ), (0:ℝ))) 0 = (fun _ : Fin 6 => ((0:ℝ), (0:ℝ))) 3 ∧
    calculate_ear (some (fun _ : Fin 6 => ((0:ℝ), (0:ℝ)))) = some (3/10) := by
  exact ⟨rfl, ear_guard_C6.2.2.1 (fun _ : Fin 6 => ((0:ℝ), (0:ℝ))) rfl⟩

/-! ### Synthetic 10-tick session log for C5 -/

/-- Timestamps of 10 ticks spaced exactly 5 seconds apart. -/
def tick5Timestamps : List ℚ := [100, 105, 110, 115, 120, 125, 130, 135, 140, 145]

/-- The persisted rows of the synthetic session: the 10 ticks zipped with
an arbitrary assignment of productivity labels, all with one service. -/
def tickRows (labels : List String) : List ActivityRow :=
  (tick5Timestamps.zip labels).map fun p =>
    { timestamp := p.1, productivity_label := p.2, service_name := "App" }

theorem tickRows_map_timestamp (labels : List String) (hlen : labels.length = 10) :
    (tickRows labels).map (fun r => r.timestamp) = tick5Timestamps := by
  rw [tickRows, List.map_map]
  exact List.map_fst_zip _ _ (by rw [hlen]; exact Nat.le_refl _)

theorem tickRows_countLabel (labels : List String) (hlen : labels.length = 10)
    (lab : String) :
    countLabel (tickRows labels) lab = labels.countP (fun s => s == lab) := by
  rw [countLabel, tickRows, List.countP_map]
  have h1 : ((fun r : ActivityRow => r.productivity_label == lab) ∘
      fun p : ℚ × String =>
        ({ timestamp := p.1, productivity_label := p.2,
           service_name := "App" } : ActivityRow)) =
      ((fun s => s == lab) ∘ Prod.snd) := rfl
  rw [h1, ← List.countP_map]
  rw [List.map_snd_zip _ _ (by rw [hlen]; exact Nat.le_refl _)]

theorem tick5_interval : analysisInterval tick5Timestamps = 5 := by
  have hdiffs : diffsQ tick5Timestamps = [5, 5, 5, 5, 5, 5, 5, 5, 5] := by
    norm_num [tick5Timestamps, diffsQ]
  have hmed : medianQ [5, 5, 5, 5, 5, 5, 5, 5, 5] = some 5 := by
    norm_num [medianQ, sortQ, insertQ, List.getD]
  simp only [analysisInterval, hdiffs, hmed]
  norm_num

theorem tick5_min : listMinQ tick5Timestamps = 100 := by
  norm_num [tick5Timestamps, listMinQ, min_def]

theorem tick5_max : listMaxQ tick5Timestamps = 145 := by
  norm_num [tick5Timestamps, listMaxQ, max_def]

/-- C5: a session log of 10 ticks spaced exactly 5 seconds apart with 6
Productive and 4 Unproductive rows summarizes to
productivity_percentage = 60 and a 45-second total duration, i.e.
total_duration_minutes = 0.75 (the first-to-last timestamp span, not
tick count times interval, which would be 50 seconds); in general the
productive percentage is productiveSeconds divided by the sum of
productive and unproductive seconds, times 100, and 0 when that
denominator is 0. -/
theorem session_summary_C5 :
    (∀ labels : List String,
      labels.length = 10 →
      labels.countP (fun s => s == "Productive") = 6 →
      labels.countP (fun s => s == "Unproductive") = 4 →
      ∃ s : SessionSummary,
        calculate_session_summary (tickRows labels) = some s ∧
        s.total_duration_seconds = 45 ∧
        s.total_duration_minutes = 3/4 ∧
        s.productivity_percentage = 60) ∧
    (∀ ps us : ℚ,
      (0 < ps + us → productivityPercentage ps us = ps / (ps + us) * 100) ∧
      (ps + us = 0 → productivityPercentage ps us = 0)) := by
  constructor
  · intro labels hlen hP hU
    have hrowslen : (tickRows labels).length = 10 := by
      rw [tickRows, List.length_map, List.length_zip, hlen]
      rfl
    have hne : ¬ (tickRows labels).isEmpty = true := by
      rw [List.isEmpty_iff]
      intro hnil
      rw [hnil] at hrowslen
      simp at hrowslen
    simp only [calculate_session_summary]
    rw [if_neg hne]
    rw [tickRows_map_timestamp labels hlen, tick5_interval, tick5_min, tick5_max,
      tickRows_countLabel labels hlen, tickRows_countLabel labels hlen, hP, hU]
    refine ⟨_, rfl, by norm_num, ?_, ?_⟩
    · show round2 ((145 - 100) / 60) = 3/4
      rw [round2, round_eq]
      norm_num
    · show round2 (productivityPercentage ((6:ℕ) * 5) ((4:ℕ) * 5)) = 60
      simp only [productivityPercentage]
      rw [if_pos (by norm_num)]
      rw [round2, round_eq]
      norm_num
  · intro ps us
    constructor
    · intro h
      simp only [productivityPercentage]
      rw [if_pos h]
    · intro h
      simp only [productivityPercentage]
      rw [if_neg (by rw [h]; exact lt_irrefl 0)]

/-- Witness for C5: the concrete labeling with the 6 Productive rows
first and the 4 Unproductive rows last. -/
theorem session_summary_C5_witness :
    (["Productive", "Productive", "Productive", "Productive", "Productive",
      "Productive", "Unproductive", "Unproductive", "Unproductive",
      "Unproductive"] : List String).length = 10 ∧
    ∃ s : SessionSummary,
      calculate_session_summary
          (tickRows ["Productive", "Productive", "Productive", "Productive",
            "Productive", "Productive", "Unproductive", "Unproductive",
            "Unproductive", "Unproductive"]) = some s ∧
      s.total_duration_seconds = 45 ∧
      s.total_duration_minutes = 3/4 ∧
      s.productivity_percentage = 60 := by
  have h := session_summary_C5.1
    ["Productive", "Productive", "Productive", "Productive", "Productive",
      "Productive", "Unproductive", "Unproductive", "Unproductive",
      "Unproductive"] (by decide) (by decide) (by decide)
  exact ⟨by decide, h⟩

end FocusGuardian
